import Mathlib

/-!
Verification development for the Digital-Twins WebSocket pipeline.

Shallow embedding of the JavaScript sources:
  - src/services/ttsService.js   (voice resolution, streaming / complete TTS)
  - src/llmService.js            (text generation wrapper)
  - src/ws/handlers.js           (per-turn message sequence, direct handler)
  - src/server.js                (direct vs queued mode, TTS response handler)
  - src/services/redisClient.js  (history cache tiers)

External effects (HTTP responses, stream contents, Redis availability) are
modelled as explicit inputs.  Wall-clock timestamps and the float-derived
duration strings are elided: no claim depends on them.  JavaScript byte
buffers are lists of naturals below 256.
-/

namespace DigitalTwins

/-! ## Voice resolution (src/services/ttsService.js, lines 13-52) -/

/-- The known-good voice list `SPEECHIFY_CONFIG.commonVoices`. -/
def commonVoices : List String :=
  ["henry", "sarah", "david", "alice", "george", "emma", "john", "jane",
   "a882153d-42fa-4f24-940e-f1c9f7853b12"]

/-- One hex digit, case-insensitive (the regex class `[0-9a-f]` under the
`/i` flag). -/
def isHexDigitCI (c : Char) : Bool :=
  ('0' ≤ c && c ≤ '9') || ('a' ≤ c && c ≤ 'f') || ('A' ≤ c && c ≤ 'F')

/-- The UUID version digit class `[1-5]`. -/
def isVersionDigit (c : Char) : Bool := '1' ≤ c && c ≤ '5'

/-- The UUID variant class `[89ab]` under the `/i` flag. -/
def isVariantCI (c : Char) : Bool :=
  c = '8' || c = '9' || c = 'a' || c = 'b' || c = 'A' || c = 'B'

/-- `isValidUUID` from ttsService.js: the anchored regex
`[0-9a-f]{8}-[0-9a-f]{4}-[1-5][0-9a-f]{3}-[89ab][0-9a-f]{3}-[0-9a-f]{12}`
with the case-insensitive flag, spelt out position by position over the
36 characters. -/
def isValidUUID (s : String) : Bool :=
  let cs := s.toList
  cs.length = 36 &&
  (cs.take 8).all isHexDigitCI &&
  cs.getD 8 ' ' = '-' &&
  (((cs.drop 9).take 4).all isHexDigitCI) &&
  cs.getD 13 ' ' = '-' &&
  isVersionDigit (cs.getD 14 ' ') &&
  (((cs.drop 15).take 3).all isHexDigitCI) &&
  cs.getD 18 ' ' = '-' &&
  isVariantCI (cs.getD 19 ' ') &&
  (((cs.drop 20).take 3).all isHexDigitCI) &&
  cs.getD 23 ' ' = '-' &&
  ((cs.drop 24).all isHexDigitCI)

/-- `getBestVoiceId` from ttsService.js, parametrised by the configured
`AGENT_ID` (an empty string models a falsy agent id): if the agent id is
truthy and either appears in `commonVoices` or is UUID-shaped, use it,
otherwise fall back to the hard-coded voice `henry`. -/
def getBestVoiceId (agentId : String) : String :=
  if agentId ≠ "" && (commonVoices.contains agentId || isValidUUID agentId) then
    agentId
  else
    "henry"

/-! ## Voice-not-found fallback chain
(src/services/ttsService.js, lines 103-126 and 194-212)

Both `generateStreamingTTS` and `generateCompleteTTS` contain the same loop:
on a 404 response for the resolved voice, iterate over `commonVoices`,
skip the voice already tried, re-issue the request, and break at the first
response with `ok` status.  The provider is modelled as a function from
voice id to HTTP status code. -/

/-- The WHATWG `Response.ok` predicate: status in the range 200-299. -/
def respOk (status : Nat) : Bool := 200 ≤ status && status < 300

/-- The voices fetched by the 404-fallback loop, in order: walk the given
list, skip the already-tried `voiceId`, stop right after the first voice
whose response is ok. -/
def fallbackTried (status : String → Nat) (voiceId : String) :
    List String → List String
  | [] => []
  | v :: rest =>
    if v = voiceId then fallbackTried status voiceId rest
    else if respOk (status v) then [v]
    else v :: fallbackTried status voiceId rest

/-- All voices fetched during one synthesis attempt: the resolved voice
first, then — only when its response was a 404 — the fallback loop over
`commonVoices`. -/
def attemptTried (status : String → Nat) (voiceId : String) : List String :=
  voiceId ::
    (if status voiceId = 404 then fallbackTried status voiceId commonVoices else [])

/-- The voice whose response the attempt ultimately uses after a 404:
the first alternate in list order with an ok response, or the original
voice when every alternate fails (the original 404 response is kept). -/
def resolveAfter404 (status : String → Nat) (voiceId : String) : String :=
  match (commonVoices.filter (· ≠ voiceId)).find? (fun w => respOk (status w)) with
  | some w => w
  | none => voiceId

/-- The fallback loop visits exactly the alternates (list entries other than
the already-tried voice) up to and including the first success. -/
theorem fallbackTried_eq (status : String → Nat) (voiceId : String)
    (l : List String) :
    fallbackTried status voiceId l =
      (l.filter (· ≠ voiceId)).takeWhile (fun w => !respOk (status w)) ++
      ((l.filter (· ≠ voiceId)).dropWhile (fun w => !respOk (status w))).take 1 := by
  induction l with
  | nil => rfl
  | cons v rest ih =>
    by_cases hv : v = voiceId
    · simp [fallbackTried, hv, List.filter_cons, ih]
    · by_cases hok : respOk (status v)
      · simp [fallbackTried, hv, hok, List.filter_cons, List.takeWhile_cons,
          List.dropWhile_cons]
      · simp [fallbackTried, hv, hok, List.filter_cons, List.takeWhile_cons,
          List.dropWhile_cons, ih]

/-- The fallback loop's trace is a sublist of the alternates list. -/
theorem fallbackTried_sublist (status : String → Nat) (voiceId : String)
    (l : List String) :
    List.Sublist (fallbackTried status voiceId l) (l.filter (· ≠ voiceId)) := by
  rw [fallbackTried_eq]
  have h1 : List.Sublist
      ((l.filter (· ≠ voiceId)).takeWhile (fun w => !respOk (status w)) ++
        ((l.filter (· ≠ voiceId)).dropWhile (fun w => !respOk (status w))).take 1)
      ((l.filter (· ≠ voiceId)).takeWhile (fun w => !respOk (status w)) ++
        (l.filter (· ≠ voiceId)).dropWhile (fun w => !respOk (status w))) :=
    List.Sublist.append (List.Sublist.refl _) (List.take_sublist _ _)
  rwa [List.takeWhile_append_dropWhile] at h1

/-- The known-good voice list has no duplicates. -/
theorem commonVoices_nodup : commonVoices.Nodup := by decide

/-- C6: a requested/default voice identifier that is neither present in the
known-good voice list nor UUID-shaped resolves to the hard-coded default
voice `henry`, not to the requested string. -/
theorem getBestVoiceId_default (v : String)
    (h1 : commonVoices.contains v = false) (h2 : isValidUUID v = false) :
    getBestVoiceId v = "henry" := by
  have h1m : v ∉ commonVoices := by simpa using h1
  simp [getBestVoiceId, h1m, h2]

/-- Witness for C6 at the concrete unrecognised voice `alloy`. -/
theorem getBestVoiceId_default_witness : getBestVoiceId "alloy" = "henry" :=
  getBestVoiceId_default "alloy" (by decide) (by decide)

/-- C7: when the provider reports 404 for the resolved voice, the attempt
fetches the resolved voice and then the alternates from the known-good list
in list order — skipping the voice already tried — up to and including the
first success; the trace never revisits a voice and is bounded by one pass
over the known-good list. -/
theorem voice_fallback_chain (status : String → Nat) (v : String)
    (h : status v = 404) :
    attemptTried status v =
      v :: ((commonVoices.filter (· ≠ v)).takeWhile (fun w => !respOk (status w)) ++
        ((commonVoices.filter (· ≠ v)).dropWhile (fun w => !respOk (status w))).take 1) ∧
    (attemptTried status v).Nodup ∧
    (attemptTried status v).length ≤ commonVoices.length + 1 := by
  have hsub := fallbackTried_sublist status v commonVoices
  have hfilter_nodup : (commonVoices.filter (· ≠ v)).Nodup :=
    List.Nodup.filter _ commonVoices_nodup
  have hnodup : (fallbackTried status v commonVoices).Nodup :=
    List.Nodup.sublist hsub hfilter_nodup
  have hnotmem : v ∉ fallbackTried status v commonVoices := by
    intro hv
    have := List.Sublist.subset hsub hv
    simp [List.mem_filter] at this
  refine ⟨?_, ?_, ?_⟩
  · simp [attemptTried, h, fallbackTried_eq]
  · simp only [attemptTried, h, if_pos]
    exact List.nodup_cons.mpr ⟨hnotmem, hnodup⟩
  · simp only [attemptTried, h, if_pos, List.length_cons]
    have h1 : (fallbackTried status v commonVoices).length ≤
        (commonVoices.filter (· ≠ v)).length := List.Sublist.length_le hsub
    have h2 : (commonVoices.filter (· ≠ v)).length ≤ commonVoices.length :=
      List.length_filter_le _ _
    omega

/-- Witness for C7: with a provider that rejects `henry` with 404 and accepts
every other voice, the attempt tries `henry` then `sarah` and stops. -/
theorem voice_fallback_chain_witness :
    (attemptTried (fun w => if w = "henry" then 404 else 200) "henry").Nodup ∧
    (attemptTried (fun w => if w = "henry" then 404 else 200) "henry").length ≤
      commonVoices.length + 1 :=
  ⟨(voice_fallback_chain (fun w => if w = "henry" then 404 else 200) "henry"
      (by decide)).2.1,
   (voice_fallback_chain (fun w => if w = "henry" then 404 else 200) "henry"
      (by decide)).2.2⟩

/-! ## Speech Synthesis Client (src/services/ttsService.js, lines 57-246)

`Buffer.toString('base64')` is embedded as `base64Encode` over byte lists
(naturals below 256), using the standard alphabet with `=` padding. -/

/-- The standard base64 alphabet. -/
def base64Alphabet : List Char :=
  "ABCDEFGHIJKLMNOPQRSTUVWXYZabcdefghijklmnopqrstuvwxyz0123456789+/".toList

/-- The base64 character for a 6-bit value. -/
def b64c (n : Nat) : Char := base64Alphabet.getD n 'A'

/-- Base64 encoding of a byte list, as produced by
`Buffer.toString('base64')`: groups of three bytes become four alphabet
characters; a trailing group of one or two bytes is padded with `=`. -/
def base64Encode : List Nat → String
  | [] => ""
  | [a] => String.mk [b64c (a / 4), b64c (a % 4 * 16), '=', '=']
  | [a, b] => String.mk [b64c (a / 4), b64c (a % 4 * 16 + b / 16), b64c (b % 16 * 4), '=']
  | a :: b :: c :: rest =>
    String.mk [b64c (a / 4), b64c (a % 4 * 16 + b / 16), b64c (b % 16 * 4 + c / 64),
      b64c (c % 64)] ++ base64Encode rest

/-- The uniform result shape returned by both synthesis paths
(`generateStreamingTTS` lines 159-166, `generateCompleteTTS` lines 236-245).
The float-derived `estimatedDuration` string is elided. -/
structure SynthesisResult where
  sessionId : String
  voice : String
  chunks : List String
  totalBytes : Nat
  isStreaming : Bool
  audioUrl : Option String
deriving DecidableEq, Repr

/-- The externally observable behaviour of the provider for one streaming
request: HTTP status per voice, whether the response body supports
incremental reads, and the stream's byte blocks per voice. -/
structure StreamEnv where
  status : String → Nat
  hasReader : Bool
  blocks : String → List (List Nat)

/-- The externally observable behaviour of the provider for one
complete-buffer request: HTTP status per voice and the decoded audio
payload per voice.  `none` models the JSON-envelope response that lacks
`audio_data` (the code throws in that case); a binary response always
yields `some`. -/
structure CompleteEnv where
  status : String → Nat
  payload : String → Option (List Nat)

/-- The mutable `voiceId` variable of both synthesis paths after the
404-fallback section: the resolved voice, replaced by the first working
alternate when the provider answered 404 for it. -/
def usedVoice (status : String → Nat) (agentId : String) : String :=
  if status (getBestVoiceId agentId) = 404 then
    resolveAfter404 status (getBestVoiceId agentId)
  else getBestVoiceId agentId

/-- `generateStreamingTTS`: resolve the voice, apply the 404-fallback chain,
fail on a non-ok final response or a body without a reader, otherwise
base64-encode each received block as one chunk and accumulate total bytes. -/
def generateStreamingTTSModel (env : StreamEnv) (sessionId agentId : String) :
    Except String SynthesisResult :=
  if respOk (env.status (usedVoice env.status agentId)) then
    if env.hasReader then
      Except.ok
        { sessionId := sessionId
          voice := usedVoice env.status agentId
          chunks := (env.blocks (usedVoice env.status agentId)).map base64Encode
          totalBytes :=
            ((env.blocks (usedVoice env.status agentId)).map List.length).sum
          isStreaming := true
          audioUrl := none }
    else Except.error "Response body doesn't support streaming"
  else Except.error "Streaming failed"

/-- `generateCompleteTTS`: resolve the voice, apply the 404-fallback chain,
fail on a non-ok final response or a JSON envelope without `audio_data`,
otherwise wrap the whole payload as a single base64 chunk and set
`audioUrl` to a data URI of the payload. -/
def generateCompleteTTSModel (env : CompleteEnv) (sessionId agentId : String) :
    Except String SynthesisResult :=
  if respOk (env.status (usedVoice env.status agentId)) then
    match env.payload (usedVoice env.status agentId) with
    | none => Except.error "No audio_data in response"
    | some buf =>
      Except.ok
        { sessionId := sessionId
          voice := usedVoice env.status agentId
          chunks := [base64Encode buf]
          totalBytes := buf.length
          isStreaming := false
          audioUrl := some ("data:audio/mp3;base64," ++ base64Encode buf) }
  else Except.error "Complete TTS failed"

/-- `generateTTS`: try streaming first and fall back to complete-buffer
synthesis when the streaming attempt fails. -/
def generateTTSModel (se : StreamEnv) (ce : CompleteEnv)
    (sessionId agentId : String) : Except String SynthesisResult :=
  match generateStreamingTTSModel se sessionId agentId with
  | Except.ok r => Except.ok r
  | Except.error _ => generateCompleteTTSModel ce sessionId agentId

/-- Shape of a successful streaming result. -/
theorem streamingTTS_ok_shape {env : StreamEnv} {sid aid : String}
    {r : SynthesisResult}
    (h : generateStreamingTTSModel env sid aid = Except.ok r) :
    r.isStreaming = true ∧ r.chunks = (env.blocks r.voice).map base64Encode ∧
    r.voice = usedVoice env.status aid ∧ r.sessionId = sid := by
  unfold generateStreamingTTSModel at h
  split at h
  · split at h
    · injection h with h
      subst h
      simp
    · cases h
  · cases h

/-- Shape of a successful complete-buffer result. -/
theorem completeTTS_ok_shape {env : CompleteEnv} {sid aid : String}
    {r : SynthesisResult}
    (h : generateCompleteTTSModel env sid aid = Except.ok r) :
    r.isStreaming = false ∧
    (∃ buf, env.payload r.voice = some buf ∧ r.chunks = [base64Encode buf] ∧
      r.totalBytes = buf.length) ∧
    r.voice = usedVoice env.status aid ∧ r.sessionId = sid := by
  unfold generateCompleteTTSModel at h
  split at h
  case isTrue hok =>
    cases hp : env.payload (usedVoice env.status aid) with
    | none => rw [hp] at h; cases h
    | some buf =>
      rw [hp] at h
      injection h with h
      subst h
      exact ⟨rfl, ⟨buf, hp, rfl, rfl⟩, rfl, rfl⟩
  case isFalse hok => cases h

/-- C2 (amended): a successful synthesis result with `isStreaming = false`
has exactly one chunk, the base64 encoding of the complete audio payload;
a successful streaming result has one chunk per received stream block.
(The unamended non-emptiness part fails: see the counterexample.) -/
theorem generateTTS_chunk_shape (se : StreamEnv) (ce : CompleteEnv)
    (sid aid : String) (r : SynthesisResult)
    (h : generateTTSModel se ce sid aid = Except.ok r) :
    (r.isStreaming = false →
      ∃ buf, ce.payload r.voice = some buf ∧ r.chunks = [base64Encode buf] ∧
        r.totalBytes = buf.length ∧ r.chunks.length = 1) ∧
    (r.isStreaming = true → r.chunks = (se.blocks r.voice).map base64Encode) := by
  unfold generateTTSModel at h
  cases hs : generateStreamingTTSModel se sid aid with
  | ok r' =>
    rw [hs] at h
    injection h with h
    subst h
    obtain ⟨h1, h2, _, _⟩ := streamingTTS_ok_shape hs
    constructor
    · intro hfalse
      rw [h1] at hfalse
      cases hfalse
    · intro _
      exact h2
  | error e =>
    rw [hs] at h
    obtain ⟨h1, ⟨buf, hbuf, hch, htb⟩, _, _⟩ := completeTTS_ok_shape h
    constructor
    · intro _
      exact ⟨buf, hbuf, hch, htb, by rw [hch]; rfl⟩
    · intro htrue
      rw [h1] at htrue
      cases htrue

/-- Witness for C2 (amended): streaming fails for want of a readable body,
the complete-buffer fallback succeeds, and the result carries the single
base64 chunk of the payload. -/
theorem generateTTS_chunk_shape_witness :
    (⟨fun _ => 200, fun _ => some [77, 112, 51]⟩ : CompleteEnv).payload "henry" =
        some [77, 112, 51] ∧
    base64Encode [77, 112, 51] = "TXAz" := by
  have h := generateTTS_chunk_shape
    ⟨fun _ => 200, false, fun _ => []⟩ ⟨fun _ => 200, fun _ => some [77, 112, 51]⟩
    "s" "henry"
    { sessionId := "s", voice := "henry", chunks := [base64Encode [77, 112, 51]],
      totalBytes := 3, isStreaming := false,
      audioUrl := some ("data:audio/mp3;base64," ++ base64Encode [77, 112, 51]) }
    (by rfl)
  obtain ⟨buf, hbuf, hch, _, _⟩ := h.1 rfl
  have hb : buf = [77, 112, 51] := by
    have := hbuf
    simp at this
    exact this.symm
  refine ⟨hb ▸ hbuf, by decide⟩

/-- C2 counterexample: a provider whose successful stream delivers zero
blocks yields a successful synthesis result whose `chunks` array is empty,
refuting the non-emptiness part of the claim. -/
theorem generateTTS_empty_chunks_counterexample :
    generateTTSModel ⟨fun _ => 200, true, fun _ => []⟩
      ⟨fun _ => 200, fun _ => some []⟩ "s" "henry" =
      Except.ok
        { sessionId := "s", voice := "henry", chunks := [], totalBytes := 0,
          isStreaming := true, audioUrl := none } := by
  rfl

/-! ## Text generation (src/llmService.js)

The OpenAI call itself is abstracted as a `ProviderOutcome`; the model,
system prompt and sampling parameters only feed that call. -/

/-- One conversation-history entry `{role, content}`. -/
structure HistEntry where
  role : String
  content : String
deriving DecidableEq, Repr

/-- Outcome of the chat-completion provider call. -/
inductive ProviderOutcome where
  | reply (text : String)
  | fail (message : String)
deriving DecidableEq, Repr

/-- `getLLMResponse` from llmService.js: throw on a missing (falsy) twin id
or message; on provider success return the reply and the input history with
the user turn and the assistant turn appended (a fresh array built by
spread); on provider failure CATCH the error and return the canned reply
`Non so rispondere` with the input history unchanged. -/
def getLLMResponse (digitalTwinId : String) (history : List HistEntry)
    (newMessage : String) (provider : ProviderOutcome) :
    Except String (String × List HistEntry) :=
  if digitalTwinId = "" || newMessage = "" then
    Except.error ("Missing required parameters: digitalTwinId=" ++ digitalTwinId
      ++ ", newMessage=" ++ newMessage)
  else
    match provider with
    | ProviderOutcome.reply r =>
      Except.ok (r, history ++ [⟨"user", newMessage⟩, ⟨"assistant", r⟩])
    | ProviderOutcome.fail _ => Except.ok ("Non so rispondere", history)

/-- `callLLM` from llmService.js: the exported wrapper (the `null` system
prompt argument is resolved inside the provider call, which is abstracted
here). -/
def callLLM (digitalTwinId prompt : String) (history : List HistEntry)
    (provider : ProviderOutcome) : Except String (String × List HistEntry) :=
  getLLMResponse digitalTwinId history prompt provider

/-! ## Client-visible messages

One `audio_chunk` payload; the Lean field names cover both the snake_case
spelling of ws/handlers.js (`chunk_index`, `audio_base64`,
`total_chunks_expected`, `is_final_chunk`) and the camelCase spelling of
server.js (`chunkIndex`, `audioBase64`, `totalChunks`, `isFinalChunk`).
The constant `format: "mp3"` field and the ISO timestamps are elided. -/

structure AudioChunkMsg where
  sessionId : String
  index : Nat
  audioBase64 : String
  total : Nat
  isFinal : Bool
deriving DecidableEq, Repr

/-- A server-to-client message.  Fields carried only by one emission site
are optional; constant fields (provider, format) and time-derived fields
(timestamps, durations, processing times) are elided. -/
inductive ServerMsg where
  | twinResponse (digitalTwinId : String) (twinName : Option String)
      (text : String) (sessionId : String) (ttsWillFollow : Bool)
  | ttsStarted (sessionId digitalTwinId voice : String)
  | audioChunk (m : AudioChunkMsg)
  | ttsComplete (sessionId : String) (totalChunks totalAudioBytes : Nat)
      (audioUrl : Option String)
  | errorMsg (errorCode digitalTwinId message : String) (stage : Option String)
deriving DecidableEq, Repr

/-- The `forEach` loop shared by handlers.js (lines 41-62) and server.js
(lines 197-211 and 354-369): one `audio_chunk` message per element of
`chunks`, in array order, with the chunk accounting fields derived from the
index and the array length. -/
def audioChunkMsgs (sid : String) (chunks : List String) : List AudioChunkMsg :=
  chunks.enum.map (fun ic =>
    { sessionId := sid
      index := ic.1
      audioBase64 := ic.2
      total := chunks.length
      isFinal := ic.1 == chunks.length - 1 })

/-- Projection selecting the audio-chunk messages of a sequence. -/
def chunkData : ServerMsg → Option AudioChunkMsg
  | ServerMsg.audioChunk m => some m
  | _ => none

/-- The chunk indices of a message sequence, in emission order. -/
def chunkIndices (l : List ServerMsg) : List Nat :=
  (l.filterMap chunkData).map AudioChunkMsg.index

/-! ## Direct WebSocket handler (src/ws/handlers.js, handleTwinMessage)

The per-turn client-visible sequence, given the provider outcome, the
synthesis outcome and the generated session id string. -/

def handleTwinMessage (twinId twinName prompt : String)
    (history : List HistEntry) (provider : ProviderOutcome)
    (tts : Except String SynthesisResult) (sid : String) : List ServerMsg :=
  match callLLM twinId prompt history provider with
  | Except.error e =>
    [ServerMsg.errorMsg "DIGITAL_TWIN_ERROR" twinId
      ("Errore durante la generazione del testo: " ++ e) (some "twin_response")]
  | Except.ok (reply, _) =>
    ServerMsg.twinResponse twinId (some twinName) reply sid true ::
    (match tts with
     | Except.ok r =>
       ServerMsg.ttsStarted r.sessionId twinId
           (if r.voice = "" then "henry" else r.voice) ::
         ((audioChunkMsgs r.sessionId r.chunks).map ServerMsg.audioChunk ++
          [ServerMsg.ttsComplete r.sessionId r.chunks.length r.totalBytes
            r.audioUrl])
     | Except.error e =>
       [ServerMsg.errorMsg "TTS_ERROR" twinId
         ("Errore durante la generazione TTS: " ++ e) (some "tts_synthesis")])

/-! ## Direct vs queued mode (src/server.js)

Direct mode (lines 167-216): in-process `callLLM` and `generateTTS`; the
chunk messages reuse the WebSocket session id, a failed TTS call is only
logged, and no `tts_started` / `tts_complete` is emitted.

Queued mode (handleLLMResponse lines 285-322 and handleTTSResponse lines
336-398): the worker-reported reply is forwarded, then the TTS response is
unpacked into `tts_started`, the chunk messages (keyed by the synthesis
result's own session id) and `tts_complete`; a worker-reported TTS failure
becomes a `TTS_PROCESSING_ERROR` message.  Both are compared for the same
text-generation and synthesis outcomes; `ttsEnabled` is the
`tts_options !== false` flag of the client request. -/

def directModeMsgs (twinId reply sid : String) (ttsEnabled : Bool)
    (tts : Except String SynthesisResult) : List ServerMsg :=
  ServerMsg.twinResponse twinId none reply sid ttsEnabled ::
  (if ttsEnabled then
    match tts with
    | Except.ok r => (audioChunkMsgs sid r.chunks).map ServerMsg.audioChunk
    | Except.error _ => []
  else [])

def queuedModeMsgs (twinId reply sid : String) (ttsEnabled : Bool)
    (tts : Except String SynthesisResult) : List ServerMsg :=
  ServerMsg.twinResponse twinId none reply sid true ::
  (if ttsEnabled then
    match tts with
    | Except.ok r =>
      ServerMsg.ttsStarted r.sessionId twinId r.voice ::
        ((audioChunkMsgs r.sessionId r.chunks).map ServerMsg.audioChunk ++
         [ServerMsg.ttsComplete r.sessionId r.chunks.length r.totalBytes none])
    | Except.error e =>
      [ServerMsg.errorMsg "TTS_PROCESSING_ERROR" twinId e none]
  else [])

/-- The emitted chunk indices are exactly `0 .. chunks.length - 1` in
increasing order. -/
theorem audioChunkMsgs_map_index (sid : String) (chunks : List String) :
    (audioChunkMsgs sid chunks).map AudioChunkMsg.index =
      List.range chunks.length := by
  unfold audioChunkMsgs
  rw [List.map_map]
  exact List.enum_map_fst chunks

/-- Field accounting of every emitted chunk message. -/
theorem audioChunkMsgs_mem (sid : String) (chunks : List String) :
    ∀ m ∈ audioChunkMsgs sid chunks,
      m.sessionId = sid ∧ m.total = chunks.length ∧
      (m.isFinal = true ↔ m.index = chunks.length - 1) := by
  intro m hm
  unfold audioChunkMsgs at hm
  rw [List.mem_map] at hm
  obtain ⟨ic, _, rfl⟩ := hm
  exact ⟨rfl, rfl, by simp⟩

/-- C1: in a delivered turn whose synthesis succeeded, the audio_chunk
messages carry chunk indices exactly `0 .. N-1` in increasing order for
`N = chunks.length`, every such message carries `total_chunks_expected = N`,
and `is_final_chunk` holds exactly on index `N - 1`. -/
theorem chunk_accounting (twinId twinName prompt sid : String)
    (history : List HistEntry) (reply : String) (r : SynthesisResult)
    (ht : twinId ≠ "") (hp : prompt ≠ "") :
    (handleTwinMessage twinId twinName prompt history
        (ProviderOutcome.reply reply) (Except.ok r) sid).filterMap chunkData =
      audioChunkMsgs r.sessionId r.chunks ∧
    (audioChunkMsgs r.sessionId r.chunks).map AudioChunkMsg.index =
      List.range r.chunks.length ∧
    ∀ m ∈ audioChunkMsgs r.sessionId r.chunks,
      m.total = r.chunks.length ∧
      (m.isFinal = true ↔ m.index = r.chunks.length - 1) := by
  refine ⟨?_, audioChunkMsgs_map_index _ _, ?_⟩
  · have hcomp : chunkData ∘ ServerMsg.audioChunk = some := rfl
    simp [handleTwinMessage, callLLM, getLLMResponse, ht, hp, chunkData,
      List.filterMap_cons, List.filterMap_append, List.filterMap_map,
      hcomp, List.filterMap_some]
  · intro m hm
    exact ⟨(audioChunkMsgs_mem _ _ m hm).2.1, (audioChunkMsgs_mem _ _ m hm).2.2⟩

/-- Witness for C1: a concrete two-chunk turn emits chunk indices 0 and 1. -/
theorem chunk_accounting_witness :
    ((handleTwinMessage "warren-buffett" "Warren Buffett" "ciao" []
        (ProviderOutcome.reply "salve") (Except.ok
          { sessionId := "ts", voice := "henry", chunks := ["AA", "BB"],
            totalBytes := 12, isStreaming := true, audioUrl := none })
        "sid").filterMap chunkData).map AudioChunkMsg.index = [0, 1] := by
  have h := chunk_accounting "warren-buffett" "Warren Buffett" "ciao" "sid" []
    "salve"
    { sessionId := "ts", voice := "henry", chunks := ["AA", "BB"],
      totalBytes := 12, isStreaming := true, audioUrl := none }
    (by decide) (by decide)
  rw [h.1, h.2.1]
  rfl

/-- Is the message an error tagged with the given stage? -/
def isErrorStage (stage : String) : ServerMsg → Bool
  | ServerMsg.errorMsg _ _ _ st => st == some stage
  | _ => false

/-- Is the message an audio chunk? -/
def msgIsChunk : ServerMsg → Bool
  | ServerMsg.audioChunk _ => true
  | _ => false

/-- Is the message a tts_started notification? -/
def msgIsTtsStarted : ServerMsg → Bool
  | ServerMsg.ttsStarted _ _ _ => true
  | _ => false

/-- Is the message a tts_complete notification? -/
def msgIsTtsComplete : ServerMsg → Bool
  | ServerMsg.ttsComplete _ _ _ _ => true
  | _ => false

/-- C5: when synthesis fails after the text reply was sent, the turn's
sequence is exactly the twin_response followed by one error tagged with
stage tts_synthesis — so the client receives exactly one such error, no
audio_chunk messages, and the already-sent text message is never
retracted. -/
theorem tts_failure_isolated (twinId twinName prompt sid reply e : String)
    (history : List HistEntry) (ht : twinId ≠ "") (hp : prompt ≠ "") :
    handleTwinMessage twinId twinName prompt history
        (ProviderOutcome.reply reply) (Except.error e) sid =
      [ServerMsg.twinResponse twinId (some twinName) reply sid true,
       ServerMsg.errorMsg "TTS_ERROR" twinId
         ("Errore durante la generazione TTS: " ++ e) (some "tts_synthesis")] ∧
    (handleTwinMessage twinId twinName prompt history
        (ProviderOutcome.reply reply) (Except.error e) sid).countP
      (isErrorStage "tts_synthesis") = 1 ∧
    (handleTwinMessage twinId twinName prompt history
        (ProviderOutcome.reply reply) (Except.error e) sid).countP
      msgIsChunk = 0 := by
  refine ⟨?_, ?_, ?_⟩ <;>
    simp [handleTwinMessage, callLLM, getLLMResponse, ht, hp, isErrorStage,
      msgIsChunk, List.countP_cons]

/-- Witness for C5 at concrete inputs. -/
theorem tts_failure_isolated_witness :
    handleTwinMessage "warren-buffett" "Warren Buffett" "ciao" []
        (ProviderOutcome.reply "salve") (Except.error "Streaming failed") "sid" =
      [ServerMsg.twinResponse "warren-buffett" (some "Warren Buffett") "salve"
        "sid" true,
       ServerMsg.errorMsg "TTS_ERROR" "warren-buffett"
         ("Errore durante la generazione TTS: " ++ "Streaming failed")
         (some "tts_synthesis")] :=
  (tts_failure_isolated "warren-buffett" "Warren Buffett" "ciao" "sid" "salve"
    "Streaming failed" [] (by decide) (by decide)).1

/-- C4 (amended): a text-generation provider failure is swallowed inside
`getLLMResponse`, which returns the canned reply `Non so rispondere` with
the input history unchanged; the client then receives an ordinary
twin_response and zero stage-twin_response errors, and the TTS pipeline
proceeds.  A stage-twin_response error is emitted only when
`getLLMResponse` throws, i.e. on a missing (falsy) twin id or prompt, and
then it is the turn's only message: no tts_started, audio_chunk or
tts_complete. -/
theorem llm_failure_behaviour (twinId twinName prompt sid emsg : String)
    (history : List HistEntry) (tts : Except String SynthesisResult)
    (ht : twinId ≠ "") (hp : prompt ≠ "") :
    getLLMResponse twinId history prompt (ProviderOutcome.fail emsg) =
      Except.ok ("Non so rispondere", history) ∧
    (handleTwinMessage twinId twinName prompt history
        (ProviderOutcome.fail emsg) tts sid).countP
      (isErrorStage "twin_response") = 0 ∧
    (handleTwinMessage twinId twinName prompt history
        (ProviderOutcome.fail emsg) tts sid).head? =
      some (ServerMsg.twinResponse twinId (some twinName) "Non so rispondere"
        sid true) ∧
    ∀ provider,
      (handleTwinMessage "" twinName prompt history provider tts sid).countP
          (isErrorStage "twin_response") = 1 ∧
      (handleTwinMessage "" twinName prompt history provider tts sid).countP
          msgIsTtsStarted = 0 ∧
      (handleTwinMessage "" twinName prompt history provider tts sid).countP
          msgIsChunk = 0 ∧
      (handleTwinMessage "" twinName prompt history provider tts sid).countP
          msgIsTtsComplete = 0 := by
  refine ⟨by simp [getLLMResponse, ht, hp], ?_, ?_, ?_⟩
  · cases tts <;>
      simp [handleTwinMessage, callLLM, getLLMResponse, ht, hp, isErrorStage,
        List.countP_cons, List.countP_append, audioChunkMsgs]
  · simp [handleTwinMessage, callLLM, getLLMResponse, ht, hp]
  · intro provider
    refine ⟨?_, ?_, ?_, ?_⟩ <;>
      simp [handleTwinMessage, callLLM, getLLMResponse, isErrorStage,
        msgIsTtsStarted, msgIsChunk, msgIsTtsComplete, List.countP_cons]

/-- Witness for C4 (amended) at concrete inputs. -/
theorem llm_failure_behaviour_witness :
    getLLMResponse "warren-buffett" [] "ciao" (ProviderOutcome.fail "timeout") =
      Except.ok ("Non so rispondere", []) ∧
    (handleTwinMessage "warren-buffett" "Warren Buffett" "ciao" []
        (ProviderOutcome.fail "timeout") (Except.error "tts down")
        "sid").countP (isErrorStage "twin_response") = 0 := by
  have h := llm_failure_behaviour "warren-buffett" "Warren Buffett" "ciao"
    "sid" "timeout" [] (Except.error "tts down") (by decide) (by decide)
  exact ⟨h.1, h.2.1⟩

/-- C4 counterexample: at a concrete provider failure the client receives
no error message at all — the turn proceeds with the canned reply and even
reaches tts_started — refuting the claimed single stage-twin_response
error. -/
theorem llm_failure_counterexample :
    getLLMResponse "warren-buffett" [] "ciao" (ProviderOutcome.fail "boom") =
      Except.ok ("Non so rispondere", []) ∧
    (handleTwinMessage "warren-buffett" "Warren Buffett" "ciao" []
        (ProviderOutcome.fail "boom")
        (Except.ok
          { sessionId := "ts", voice := "henry", chunks := ["AA"],
            totalBytes := 6, isStreaming := true, audioUrl := none })
        "sid").countP (isErrorStage "twin_response") = 0 ∧
    (handleTwinMessage "warren-buffett" "Warren Buffett" "ciao" []
        (ProviderOutcome.fail "boom")
        (Except.ok
          { sessionId := "ts", voice := "henry", chunks := ["AA"],
            totalBytes := 6, isStreaming := true, audioUrl := none })
        "sid").countP msgIsTtsStarted = 1 := by
  refine ⟨rfl, by decide, by decide⟩

/-- C3 (amended): given the same text-generation and synthesis outcomes,
direct mode and queued mode agree on the leading twin_response (up to the
tts_will_follow flag, which queued mode hard-codes to true) and emit the
same chunk-index sequence, but the client-visible sequences are NEVER
byte-identical: queued mode brackets the chunks with tts_started and
tts_complete, which direct mode omits, and on synthesis failure queued
mode emits a TTS_PROCESSING_ERROR message where direct mode emits
nothing. -/
theorem mode_divergence (twinId reply sid : String) (ttsEnabled : Bool)
    (tts : Except String SynthesisResult) :
    (directModeMsgs twinId reply sid ttsEnabled tts).head? =
      some (ServerMsg.twinResponse twinId none reply sid ttsEnabled) ∧
    (queuedModeMsgs twinId reply sid ttsEnabled tts).head? =
      some (ServerMsg.twinResponse twinId none reply sid true) ∧
    chunkIndices (directModeMsgs twinId reply sid ttsEnabled tts) =
      chunkIndices (queuedModeMsgs twinId reply sid ttsEnabled tts) ∧
    directModeMsgs twinId reply sid ttsEnabled tts ≠
      queuedModeMsgs twinId reply sid ttsEnabled tts := by
  have hcomp : chunkData ∘ ServerMsg.audioChunk = some := rfl
  refine ⟨rfl, rfl, ?_, ?_⟩
  · cases ttsEnabled <;> cases tts <;>
      simp [directModeMsgs, queuedModeMsgs, chunkIndices, chunkData,
        List.filterMap_cons, List.filterMap_append, List.filterMap_map,
        hcomp, List.filterMap_some, audioChunkMsgs_map_index]
  · intro heq
    cases ttsEnabled with
    | false =>
      have hh := congrArg List.head? heq
      simp [directModeMsgs, queuedModeMsgs] at hh
    | true =>
      have hlen := congrArg List.length heq
      cases tts <;>
        simp [directModeMsgs, queuedModeMsgs, audioChunkMsgs,
          List.enum_length] at hlen

/-- C3 counterexample: at a concrete successful outcome with one chunk,
direct mode emits two messages while queued mode emits four, so the
client-visible sequences are not byte-identical. -/
theorem mode_divergence_counterexample :
    directModeMsgs "warren-buffett" "salve" "ws1" true
        (Except.ok
          { sessionId := "ts", voice := "henry", chunks := ["AA"],
            totalBytes := 6, isStreaming := true, audioUrl := none }) ≠
      queuedModeMsgs "warren-buffett" "salve" "ws1" true
        (Except.ok
          { sessionId := "ts", voice := "henry", chunks := ["AA"],
            totalBytes := 6, isStreaming := true, audioUrl := none }) := by
  decide

/-- C8 (amended): on provider success `getLLMResponse` returns a fresh
history equal to the input with exactly one user entry and one assistant
entry appended; on provider failure it returns the input history unchanged
— no user entry is appended on the failure path. -/
theorem history_append (twinId msg reply emsg : String)
    (history : List HistEntry) (ht : twinId ≠ "") (hm : msg ≠ "") :
    getLLMResponse twinId history msg (ProviderOutcome.reply reply) =
      Except.ok (reply,
        history ++ [⟨"user", msg⟩, ⟨"assistant", reply⟩]) ∧
    getLLMResponse twinId history msg (ProviderOutcome.fail emsg) =
      Except.ok ("Non so rispondere", history) := by
  constructor <;> simp [getLLMResponse, ht, hm]

/-- Witness for C8 (amended) at concrete inputs. -/
theorem history_append_witness :
    getLLMResponse "warren-buffett" [⟨"user", "a"⟩] "ciao"
        (ProviderOutcome.reply "salve") =
      Except.ok ("salve",
        [⟨"user", "a"⟩, ⟨"user", "ciao"⟩, ⟨"assistant", "salve"⟩]) :=
  (history_append "warren-buffett" "ciao" "salve" "x" [⟨"user", "a"⟩]
    (by decide) (by decide)).1

/-- C8 counterexample: on a provider failure the returned history is the
input history itself — the user entry the claim requires is not appended. -/
theorem history_append_counterexample :
    getLLMResponse "warren-buffett" [⟨"user", "a"⟩] "ciao"
        (ProviderOutcome.fail "boom") =
      Except.ok ("Non so rispondere", [⟨"user", "a"⟩]) ∧
    ([⟨"user", "a"⟩] : List HistEntry) ≠
      [⟨"user", "a"⟩, ⟨"user", "ciao"⟩] := by
  exact ⟨rfl, by decide⟩

/-! ## History cache (src/services/redisClient.js)

Three stores: the per-process L1 map (`l1Cache`, keyed by
`history:<twinId>`, entries stamped with a millisecond timestamp), the
shared Redis tier (availability flag plus per-key read outcome), and the
last-resort in-process `memoryStore` (keyed by the bare twin id).
`Date.now()` is the explicit `now` field. -/

/-- Outcome of one Redis GET for a key: the key holds a parseable value,
the key is absent (a nil reply), or the operation throws (connection or
parse error — both are caught by the same handler). -/
inductive RedisRead where
  | found (h : List HistEntry)
  | missing
  | failed
deriving DecidableEq, Repr

/-- Did the Redis read yield a value? -/
def redisReadFound : RedisRead → Bool
  | RedisRead.found _ => true
  | _ => false

/-- The state visible to one `getHistory` call. -/
structure CacheState where
  l1 : String → Option (List HistEntry × Nat)
  redisAvailable : Bool
  redisGet : String → RedisRead
  memory : String → Option (List HistEntry)
  now : Nat

/-- Which store served a read. -/
inductive Source where
  | l1Cache
  | redisTier
  | memoryFallback
deriving DecidableEq, Repr

/-- `L1_CACHE_TTL`: five minutes in milliseconds. -/
def L1_CACHE_TTL : Nat := 5 * 60 * 1000

/-- `getFromL1Cache`: a cached entry is served only while younger than the
L1 TTL. -/
def getFromL1Cache (st : CacheState) (key : String) :
    Option (List HistEntry) :=
  match st.l1 key with
  | some (data, ts) => if st.now - ts < L1_CACHE_TTL then some data else none
  | none => none

/-- `getHistory`, read path: L1 first; on an L1 miss consult Redis when
available; when Redis is unavailable, or the GET throws, or the key is
absent, fall back to the in-process memory store (defaulting to the empty
history).  Returns the value and the store that served it.  (The L1
back-fill performed on Redis and memory hits is a write-through that does
not affect which store served this read.) -/
def getHistoryRead (st : CacheState) (digitalTwinId : String) :
    List HistEntry × Source :=
  match getFromL1Cache st ("history:" ++ digitalTwinId) with
  | some d => (d, Source.l1Cache)
  | none =>
    if st.redisAvailable then
      match st.redisGet ("history:" ++ digitalTwinId) with
      | RedisRead.found h => (h, Source.redisTier)
      | RedisRead.missing =>
        ((st.memory digitalTwinId).getD [], Source.memoryFallback)
      | RedisRead.failed =>
        ((st.memory digitalTwinId).getD [], Source.memoryFallback)
    else ((st.memory digitalTwinId).getD [], Source.memoryFallback)

/-- C9 (amended): the last-resort memory store serves a read exactly when
L1 misses and tier-2 yields no value — which happens not only when tier-2
is unavailable, but also when the read fails or the key is simply absent
from an available tier-2. -/
theorem memory_fallback_reach (st : CacheState) (digitalTwinId : String) :
    (getHistoryRead st digitalTwinId).2 = Source.memoryFallback ↔
      (getFromL1Cache st ("history:" ++ digitalTwinId) = none ∧
       (st.redisAvailable = false ∨
        redisReadFound (st.redisGet ("history:" ++ digitalTwinId)) = false)) := by
  unfold getHistoryRead
  cases hl : getFromL1Cache st ("history:" ++ digitalTwinId) with
  | some d => simp [hl]
  | none =>
    cases hra : st.redisAvailable with
    | false => simp [redisReadFound]
    | true =>
      cases hr : st.redisGet ("history:" ++ digitalTwinId) <;>
        simp [hr, redisReadFound]

/-- C9 counterexample: with tier-2 available but holding no entry for the
key, the read is served by the last-resort memory store — refuting "only
reachable when tier-2 is unavailable". -/
theorem memory_fallback_counterexample :
    (getHistoryRead
      { l1 := fun _ => none
        redisAvailable := true
        redisGet := fun _ => RedisRead.missing
        memory := fun k => if k = "warren-buffett"
          then some [⟨"user", "ciao"⟩] else none
        now := 0 } "warren-buffett") =
      ([⟨"user", "ciao"⟩], Source.memoryFallback) := by
  rfl

/-! `setHistory`, write path. -/

/-- A JavaScript value passed as the `history` argument: either an array
of history entries or any non-array value (string, number, object, null —
the code only distinguishes via `Array.isArray`). -/
inductive JSValue where
  | arr (l : List HistEntry)
  | other (description : String)
deriving DecidableEq, Repr

/-- The environment of one `setHistory` call: Redis availability, whether
the Redis SET succeeds, and the current time for the L1 stamp. -/
structure WriteEnv where
  redisAvailable : Bool
  redisWriteOk : Bool
  now : Nat

/-- The three persistent stores as updatable maps. -/
structure Stores where
  l1 : String → Option (List HistEntry × Nat)
  redis : String → Option (List HistEntry)
  memory : String → Option (List HistEntry)

/-- `setL1Cache`: stamp and store under the cache key. -/
def setL1Cache (s : Stores) (key : String) (data : List HistEntry)
    (now : Nat) : Stores :=
  { s with l1 := fun k => if k = key then some (data, now) else s.l1 k }

/-- `setHistory`: reject (with only a logged error, no throw) any non-array
history; otherwise update L1, attempt the Redis SET when available
(tolerating failure), and always write the memory store as backup. -/
def setHistoryModel (env : WriteEnv) (s : Stores) (digitalTwinId : String)
    (history : JSValue) : Stores :=
  match history with
  | JSValue.other _ => s
  | JSValue.arr l =>
    let s1 := setL1Cache s ("history:" ++ digitalTwinId) l env.now
    let s2 :=
      if env.redisAvailable && env.redisWriteOk then
        { s1 with redis := fun k =>
            if k = "history:" ++ digitalTwinId then some l else s1.redis k }
      else s1
    { s2 with memory := fun k =>
        if k = digitalTwinId then some l else s2.memory k }

/-- C10: a non-array history argument makes `setHistory` return without
modifying any of the three stores (and without raising: the model is a
total function), leaving every previously stored history unchanged. -/
theorem setHistory_non_array_noop (env : WriteEnv) (s : Stores)
    (digitalTwinId description : String) :
    setHistoryModel env s digitalTwinId (JSValue.other description) = s ∧
    (∀ k, (setHistoryModel env s digitalTwinId
      (JSValue.other description)).l1 k = s.l1 k) ∧
    (∀ k, (setHistoryModel env s digitalTwinId
      (JSValue.other description)).redis k = s.redis k) ∧
    (∀ k, (setHistoryModel env s digitalTwinId
      (JSValue.other description)).memory k = s.memory k) :=
  ⟨rfl, fun _ => rfl, fun _ => rfl, fun _ => rfl⟩

end DigitalTwins
